import Mathlib

/-!
Verification of the `ts-ml-bundle-cli` project generator.

The program is embedded shallowly: the filesystem is an explicit state
(`FS`, a list of directory paths and a list of file entries), the Jinja
template engine is an oracle `Renderer` that either renders a template to a
string or fails with an error message, and every Python function of
`generator.py` / `cli.py` becomes a Lean function over these states.
Paths are lists of segments; relative path strings from the source are
split on the slash character.
-/

namespace TsMlBundle

/-- A filesystem path, as a list of segments. -/
abbrev Path := List String

/-- Split a character list on the slash separator.  Always returns a
nonempty list of segments (the empty input yields one empty segment),
mirroring how a slash-separated relative path string decomposes. -/
def splitSegs : List Char → List (List Char)
  | [] => [[]]
  | c :: rest =>
    match splitSegs rest with
    | [] => [[]]
    | s :: ss => if c = '/' then [] :: s :: ss else (c :: s) :: ss

/-- Decompose a relative path string (as written in `generator.py`) into
its slash-separated segments. -/
def splitPath (s : String) : Path :=
  (splitSegs s.data).map (fun l => String.mk l)

/-- The filesystem state: the set of existing directories and the existing
files with their contents (a later entry for the same path is shadowed by
an earlier one; `lookup_file` reads the first match). -/
structure FS where
  dirs : List Path
  files : List (Path × String)

/-- All nonempty prefixes of a path: the directories that
`mkdir(parents=True, exist_ok=True)` brings into existence. -/
def ancestors : Path → List Path
  | [] => []
  | s :: rest => [s] :: (ancestors rest).map (fun q => s :: q)

/-- `p.mkdir(parents=True, exist_ok=True)`: the directory and all of its
ancestors exist afterwards; pre-existing directories are not an error. -/
def FS.mkdir_parents (fs : FS) (p : Path) : FS :=
  { fs with dirs := ancestors p ++ fs.dirs }

/-- Read the content of the file at `p`, if any (first matching entry). -/
def lookup_file (p : Path) : List (Path × String) → Option String
  | [] => none
  | e :: rest => if e.1 = p then some e.2 else lookup_file p rest

/-- `open(p, 'w'); write(c)`: the file at `p` now holds `c`, overwriting
any previous content (the new entry shadows older ones). -/
def FS.write_file (fs : FS) (p : Path) (c : String) : FS :=
  { fs with files := (p, c) :: fs.files }

/-- Content of the file at `p` in this filesystem state, if it exists. -/
def FS.read_file (fs : FS) (p : Path) : Option String :=
  lookup_file p fs.files

/-- `Path.exists()`: true when a directory or a file is present at `p`. -/
def FS.path_exists (fs : FS) (p : Path) : Bool :=
  fs.dirs.contains p || (lookup_file p fs.files).isSome

/-- The immutable input bundle built from the CLI options
(`cli.py`, options of `main`). -/
structure GenerationRequest where
  project_name : String
  workspace_host : String
  model_type : String
  use_gpu : Bool

/-- The template-variable mapping returned by
`ProjectGenerator.get_template_vars` (`generator.py` lines 20-32),
one field per dictionary key. -/
structure TemplateVars where
  project_name : String
  project_name_underscore : String
  workspace_host : String
  model_type : String
  use_gpu : Bool
  spark_version : String
  node_type : String
  gpu_libraries : List String
  model_specific_deps : List String

/-- `self.project_name.replace("-", "_")`: Python `str.replace` with a
single-character pattern and replacement maps each character. -/
def replace_dash (s : String) : String :=
  String.mk (s.data.map (fun c => if c = '-' then '_' else c))

/-- `ProjectGenerator._get_model_dependencies` (`generator.py` lines
34-43): the fixed dictionary looked up with `deps.get(self.model_type, [])`. -/
def get_model_dependencies (model_type : String) : List String :=
  if model_type = "segmentation" then
    ["monai>=1.3.0", "cellpose==3.0.6", "segment-anything-py"]
  else if model_type = "nlp" then
    ["transformers>=4.20.0", "datasets>=2.0.0", "tokenizers>=0.13.0"]
  else if model_type = "classification" then
    ["scikit-learn>=1.3.2", "xgboost>=1.7.0"]
  else if model_type = "regression" then
    ["scikit-learn>=1.3.2", "statsmodels>=0.14.0"]
  else if model_type = "custom" then
    []
  else
    []

/-- `ProjectGenerator.get_template_vars` (`generator.py` lines 20-32). -/
def get_template_vars (r : GenerationRequest) : TemplateVars :=
  { project_name := r.project_name
    project_name_underscore := replace_dash r.project_name
    workspace_host := r.workspace_host
    model_type := r.model_type
    use_gpu := r.use_gpu
    spark_version := if r.use_gpu then "14.3.x-gpu-ml-scala2.12" else "14.3.x-scala2.12"
    node_type := if r.use_gpu then "g4dn.xlarge" else "i3.xlarge"
    gpu_libraries := if r.use_gpu then ["torch>=2.0.0", "torchvision>=0.15.0"] else []
    model_specific_deps := get_model_dependencies r.model_type }

/-- Python `str.endswith`: suffix test on the character sequence. -/
def endswith (s post : String) : Bool :=
  post.data.isSuffixOf s.data

/-- `file_path.name`: the last segment of a path. -/
def file_name (p : Path) : String :=
  (p.getLast?).getD ""

/-- The placeholder content chosen by `ProjectGenerator._create_basic_file`
(`generator.py` lines 126-135), dispatching on the file name's suffix. -/
def basic_file_content (name : String) (vars : TemplateVars) : String :=
  if endswith name ".py" then
    "# " ++ vars.project_name ++ " - Generated file\n# TODO: Implement functionality\n"
  else if endswith name ".yml" || endswith name ".yaml" then
    "# " ++ vars.project_name ++ " - Generated YAML\n# TODO: Configure properly\n"
  else if endswith name ".json" then
    "\x7b\n  \"TODO\": \"Configure properly\"\n\x7d\n"
  else if endswith name ".md" then
    "# " ++ vars.project_name ++ "\n\nTODO: Add documentation\n"
  else
    "# " ++ vars.project_name ++ " - Generated file\n"

/-- `ProjectGenerator._create_basic_file` (`generator.py` lines 122-138):
create the parent directories, then write the extension-dispatched
placeholder content. -/
def create_basic_file (fs : FS) (file_path : Path) (vars : TemplateVars) : FS :=
  (fs.mkdir_parents file_path.dropLast).write_file file_path
    (basic_file_content (file_name file_path) vars)

/-- The template engine as an oracle: `env.get_template(t)` followed by
`template.render(**vars)` either yields the rendered text or fails with
an error message (missing template, syntax error, render exception). -/
abbrev Renderer := String → TemplateVars → Except String String

/-- The warning printed by `_generate_files` on a per-file failure:
`f"Warning: Could not generate \x7boutput_file\x7d: \x7be\x7d"`. -/
def warning_msg (output_file e : String) : String :=
  "Warning: Could not generate " ++ output_file ++ ": " ++ e

/-- The fixed `files_to_generate` list of `ProjectGenerator._generate_files`
(`generator.py` lines 74-102): (template name, output relative path) pairs. -/
def files_to_generate : List (String × String) :=
  [("databricks.yaml.j2", "databricks.yaml"),
   ("requirements.txt.j2", "requirements.txt"),
   ("requirements-lock.txt.j2", "requirements-lock.txt"),
   ("README.md.j2", "README.md"),
   (".gitignore.j2", ".gitignore"),
   ("src/ds/__init__.py.j2", "src/ds/__init__.py"),
   ("src/ds/preprocess.py.j2", "src/ds/preprocess.py"),
   ("src/ds/train.py.j2", "src/ds/train.py"),
   ("src/ds/register.py.j2", "src/ds/register.py"),
   ("src/ds/deploy_serving.py.j2", "src/ds/deploy_serving.py"),
   ("src/ds/utils/__init__.py.j2", "src/ds/utils/__init__.py"),
   ("src/ds/utils/io.py.j2", "src/ds/utils/io.py"),
   ("src/ds/utils/mlflow_utils.py.j2", "src/ds/utils/mlflow_utils.py"),
   ("notebooks/01_preprocess.py.j2", "notebooks/01_preprocess.py"),
   ("notebooks/02_train.py.j2", "notebooks/02_train.py"),
   ("notebooks/03_register_and_validate.py.j2", "notebooks/03_register_and_validate.py"),
   ("jobs/job_preprocess.yml.j2", "jobs/job_preprocess.yml"),
   ("jobs/job_train.yml.j2", "jobs/job_train.yml"),
   ("jobs/job_register.yml.j2", "jobs/job_register.yml"),
   ("jobs/job_deploy_serving.yml.j2", "jobs/job_deploy_serving.yml"),
   ("jobs/job_batch_inference.yml.j2", "jobs/job_batch_inference.yml"),
   ("policies/cluster_policy_restricted.json.j2", "policies/cluster_policy_restricted.json"),
   ("policies/serving_policy_serverless.json.j2", "policies/serving_policy_serverless.json"),
   ("policies/email_notifications.json.j2", "policies/email_notifications.json"),
   ("policies/mlflow_policy.json.j2", "policies/mlflow_policy.json"),
   ("ci/github-actions.yml.j2", "ci/github-actions.yml"),
   ("docs/GOVERNANCE.md.j2", "docs/GOVERNANCE.md")]

/-- The fixed `directories` list of `ProjectGenerator._create_directories`
(`generator.py` lines 57-64). -/
def directories : List String :=
  ["src/ds/utils", "notebooks", "jobs", "policies", "ci", "docs"]

/-- One iteration of the loop in `_generate_files` (`generator.py` lines
106-120): on success create the parent directory and write the rendered
content; on any failure record the warning and fall back to
`_create_basic_file` for the same path. -/
def generate_one_file (render : Renderer) (vars : TemplateVars) (output_path : Path)
    (pr : String × String) (fs : FS) : FS × List String :=
  let file_path := output_path ++ splitPath pr.2
  match render pr.1 vars with
  | .ok content => ((fs.mkdir_parents file_path.dropLast).write_file file_path content, [])
  | .error e => (create_basic_file fs file_path vars, [warning_msg pr.2 e])

/-- The `for template_file, output_file in files_to_generate` loop of
`_generate_files`, threading the filesystem state and collecting the
printed warnings in order. -/
def run_generate_files (render : Renderer) (vars : TemplateVars) (output_path : Path) :
    List (String × String) → FS → FS × List String
  | [], fs => (fs, [])
  | pr :: rest, fs =>
    let step := generate_one_file render vars output_path pr fs
    let restRun := run_generate_files render vars output_path rest step.1
    (restRun.1, step.2 ++ restRun.2)

/-- `ProjectGenerator._generate_files` (`generator.py` lines 69-120). -/
def generate_files (render : Renderer) (vars : TemplateVars) (output_path : Path)
    (fs : FS) : FS × List String :=
  run_generate_files render vars output_path files_to_generate fs

/-- The loop of `ProjectGenerator._create_directories` (`generator.py`
lines 66-67): `(output_path / directory).mkdir(parents=True, exist_ok=True)`
for each entry. -/
def create_directories (output_path : Path) : List String → FS → FS
  | [], fs => fs
  | d :: rest, fs =>
    create_directories output_path rest (fs.mkdir_parents (output_path ++ splitPath d))

/-- `ProjectGenerator.generate` (`generator.py` lines 45-53): create the
destination, the directory structure, then all files. -/
def generate (render : Renderer) (r : GenerationRequest) (output_path : Path)
    (fs : FS) : FS × List String :=
  let fs1 := fs.mkdir_parents output_path
  let fs2 := create_directories output_path directories fs1
  run_generate_files render (get_template_vars r) output_path files_to_generate fs2

/-- `main` of `cli.py` from the point where the inputs are known: compute
`project_path = Path(output_dir) / name`; if it exists and the user does
not confirm, return with no filesystem change; otherwise construct the
generator and run `generate`. -/
def cli_main (render : Renderer) (name output_dir workspace_host model_type : String)
    (use_gpu : Bool) (confirm : Bool) (fs : FS) : FS × List String :=
  let project_path := splitPath output_dir ++ splitPath name
  if fs.path_exists project_path && !confirm then
    (fs, [])
  else
    generate render
      { project_name := name, workspace_host := workspace_host,
        model_type := model_type, use_gpu := use_gpu }
      project_path fs

/-- The content a loop iteration leaves at its own output path: the
rendered text on success, the extension-dispatched placeholder on failure. -/
def rendered_or_fallback (render : Renderer) (vars : TemplateVars)
    (file_path : Path) (template_file : String) : String :=
  match render template_file vars with
  | .ok c => c
  | .error _ => basic_file_content (file_name file_path) vars

/-! ### Helper lemmas about the filesystem model -/

theorem splitSegs_ne_nil (l : List Char) : splitSegs l ≠ [] := by
  cases l with
  | nil => simp [splitSegs]
  | cons c rest =>
    simp only [splitSegs]
    split
    · simp
    · split <;> simp

theorem splitPath_ne_nil (s : String) : splitPath s ≠ [] := by
  intro h
  exact splitSegs_ne_nil s.data (List.map_eq_nil_iff.mp h)

theorem append_splitPath_ne_nil (op : Path) (s : String) : op ++ splitPath s ≠ [] := by
  intro h
  exact splitPath_ne_nil s (List.append_eq_nil.mp h).2

theorem self_mem_ancestors {p : Path} (h : p ≠ []) : p ∈ ancestors p := by
  induction p with
  | nil => exact absurd rfl h
  | cons s rest ih =>
    by_cases hr : rest = []
    · subst hr; simp [ancestors]
    · simp only [ancestors, List.mem_cons]
      exact Or.inr (List.mem_map_of_mem _ (ih hr))

theorem lookup_file_cons_self (p : Path) (c : String) (files : List (Path × String)) :
    lookup_file p ((p, c) :: files) = some c := by
  simp [lookup_file]

theorem lookup_file_cons_ne {p q : Path} (h : p ≠ q) (c : String)
    (files : List (Path × String)) :
    lookup_file q ((p, c) :: files) = lookup_file q files := by
  simp [lookup_file, h]

/-! ### Lemmas about the directory-creation loop -/

theorem create_directories_dirs_mono (op : Path) :
    ∀ (l : List String) (fs : FS) (q : Path), q ∈ fs.dirs →
      q ∈ (create_directories op l fs).dirs
  | [], _, _, h => h
  | _ :: rest, _, q, h =>
    create_directories_dirs_mono op rest _ q (List.mem_append_right _ h)

theorem create_directories_creates (op : Path) :
    ∀ (l : List String) (fs : FS) (d : String), d ∈ l →
      (op ++ splitPath d) ∈ (create_directories op l fs).dirs
  | [], _, _, hmem => absurd hmem (List.not_mem_nil _)
  | a :: rest, fs, d, hmem => by
    rcases List.mem_cons.mp hmem with heq | hmem2
    · subst heq
      exact create_directories_dirs_mono op rest _ _
        (List.mem_append_left _ (self_mem_ancestors (append_splitPath_ne_nil op d)))
    · exact create_directories_creates op rest _ d hmem2

/-! ### Lemmas about one iteration of the file-generation loop -/

theorem gof_dirs_mono {render : Renderer} {vars : TemplateVars} {op : Path}
    {pr : String × String} {fs : FS} {q : Path} (h : q ∈ fs.dirs) :
    q ∈ (generate_one_file render vars op pr fs).1.dirs := by
  cases hre : render pr.1 vars <;>
    simp [generate_one_file, hre, create_basic_file, FS.write_file, FS.mkdir_parents, h]

theorem gof_read_self (render : Renderer) (vars : TemplateVars) (op : Path)
    (pr : String × String) (fs : FS) :
    (generate_one_file render vars op pr fs).1.read_file (op ++ splitPath pr.2)
      = some (rendered_or_fallback render vars (op ++ splitPath pr.2) pr.1) := by
  cases hre : render pr.1 vars <;>
    simp [generate_one_file, hre, rendered_or_fallback, create_basic_file,
      FS.read_file, FS.write_file, FS.mkdir_parents, lookup_file]

theorem gof_read_other {render : Renderer} {vars : TemplateVars} {op : Path}
    {pr : String × String} {fs : FS} {q : Path} (h : q ≠ op ++ splitPath pr.2) :
    (generate_one_file render vars op pr fs).1.read_file q = fs.read_file q := by
  cases hre : render pr.1 vars <;>
    simp [generate_one_file, hre, create_basic_file, FS.read_file, FS.write_file,
      FS.mkdir_parents, lookup_file, Ne.symm h]

theorem gof_log_error {render : Renderer} {vars : TemplateVars} {op : Path}
    {pr : String × String} {fs : FS} {e : String} (h : render pr.1 vars = .error e) :
    (generate_one_file render vars op pr fs).2 = [warning_msg pr.2 e] := by
  simp [generate_one_file, h]

/-! ### Lemmas about the whole file-generation loop -/

theorem rgf_dirs_mono (render : Renderer) (vars : TemplateVars) (op : Path) :
    ∀ (l : List (String × String)) (fs : FS) (q : Path), q ∈ fs.dirs →
      q ∈ (run_generate_files render vars op l fs).1.dirs
  | [], _, _, h => h
  | _ :: rest, _, q, h =>
    rgf_dirs_mono render vars op rest _ q (gof_dirs_mono h)

theorem rgf_read_preserve (render : Renderer) (vars : TemplateVars) (op : Path) :
    ∀ (l : List (String × String)) (fs : FS) (q : Path),
      (∀ pr ∈ l, op ++ splitPath pr.2 ≠ q) →
      (run_generate_files render vars op l fs).1.read_file q = fs.read_file q
  | [], _, _, _ => rfl
  | pr :: rest, fs, q, h => by
    simp only [run_generate_files]
    rw [rgf_read_preserve render vars op rest _ q
      (fun x hx => h x (List.mem_cons_of_mem _ hx))]
    exact gof_read_other (Ne.symm (h pr (List.mem_cons_self pr rest)))

theorem rgf_read_mem (render : Renderer) (vars : TemplateVars) (op : Path) :
    ∀ (l : List (String × String)) (fs : FS) (pr : String × String),
      pr ∈ l → (l.map (fun x => splitPath x.2)).Nodup →
      (run_generate_files render vars op l fs).1.read_file (op ++ splitPath pr.2)
        = some (rendered_or_fallback render vars (op ++ splitPath pr.2) pr.1)
  | [], _, _, hmem, _ => absurd hmem (List.not_mem_nil _)
  | a :: rest, fs, pr, hmem, hnd => by
    rw [List.map_cons] at hnd
    obtain ⟨hna, hndr⟩ := List.nodup_cons.mp hnd
    simp only [run_generate_files]
    rcases List.mem_cons.mp hmem with heq | hmem2
    · subst heq
      rw [rgf_read_preserve render vars op rest _ _ ?_]
      · exact gof_read_self render vars op pr fs
      · intro x hx hcontra
        have hx2 : splitPath x.2 = splitPath pr.2 := List.append_cancel_left hcontra
        exact hna (hx2 ▸ List.mem_map_of_mem _ hx)
    · exact rgf_read_mem render vars op rest _ pr hmem2 hndr

theorem rgf_log_mem (render : Renderer) (vars : TemplateVars) (op : Path) :
    ∀ (l : List (String × String)) (fs : FS) (pr : String × String) (e : String),
      pr ∈ l → render pr.1 vars = .error e →
      warning_msg pr.2 e ∈ (run_generate_files render vars op l fs).2
  | [], _, _, _, hmem, _ => absurd hmem (List.not_mem_nil _)
  | a :: rest, fs, pr, e, hmem, herr => by
    simp only [run_generate_files]
    rw [List.mem_append]
    rcases List.mem_cons.mp hmem with heq | hmem2
    · subst heq
      exact Or.inl (by rw [gof_log_error herr]; exact List.mem_singleton.mpr rfl)
    · exact Or.inr (rgf_log_mem render vars op rest _ pr e hmem2 herr)

/-- The 27 output paths of the generation loop are pairwise distinct. -/
theorem files_nodup : (files_to_generate.map (fun pr => splitPath pr.2)).Nodup := by
  decide

theorem dash_map_idem : ∀ l : List Char,
    (l.map (fun c => if c = '-' then '_' else c)).map (fun c => if c = '-' then '_' else c)
      = l.map (fun c => if c = '-' then '_' else c)
  | [] => rfl
  | c :: rest => by
    simp only [List.map_cons, dash_map_idem rest]
    by_cases hc : c = '-' <;> simp [hc]

theorem replace_dash_idem (s : String) :
    replace_dash (replace_dash s) = replace_dash s :=
  congrArg String.mk (dash_map_idem s.data)

/-! ### Claim theorems -/

/-- C1, counterexample: the fixed `files_to_generate` list does not have 26
entries — the claim, which asserts exactly 26 (template, output-path)
pairs and 26 output files, is false of the source list. -/
theorem C1_counterexample : ¬ files_to_generate.length = 26 := by
  decide

/-- C1 (amended: the fixed list has 27 pairs, not 26): after `generate`
completes on a destination path, all 6 fixed subdirectories and all 27
fixed output files exist under the destination root, for every
`GenerationRequest`, every initial filesystem, and every renderer — in
particular regardless of whether any individual template rendering failed;
the file-generation loop iterates a fixed ordered list of exactly 27
(template, output-relative-path) pairs. -/
theorem C1_generate_complete (render : Renderer) (r : GenerationRequest)
    (output_path : Path) (fs : FS) :
    files_to_generate.length = 27 ∧ directories.length = 6 ∧
    (∀ d ∈ directories,
      (output_path ++ splitPath d) ∈ (generate render r output_path fs).1.dirs) ∧
    (∀ pr ∈ files_to_generate, ∃ c,
      (generate render r output_path fs).1.read_file (output_path ++ splitPath pr.2)
        = some c) := by
  refine ⟨by decide, by decide, ?_, ?_⟩
  · intro d hd
    exact rgf_dirs_mono render (get_template_vars r) output_path files_to_generate _ _
      (create_directories_creates output_path directories _ d hd)
  · intro pr hpr
    exact ⟨_, rgf_read_mem render (get_template_vars r) output_path files_to_generate
      _ pr hpr files_nodup⟩

/-- C1, witness at a concrete instantiation: a `docs` directory and a
`README.md` file exist after a concrete run of `generate`. -/
theorem C1_generate_complete_witness :
    (["out"] ++ splitPath "docs")
        ∈ (generate (fun _ _ => .ok "x") ⟨"p", "h", "custom", false⟩ ["out"] ⟨[], []⟩).1.dirs ∧
    ∃ c, (generate (fun _ _ => .ok "x") ⟨"p", "h", "custom", false⟩ ["out"] ⟨[], []⟩).1.read_file
        (["out"] ++ splitPath "README.md") = some c := by
  have h := C1_generate_complete (fun _ _ => .ok "x") ⟨"p", "h", "custom", false⟩ ["out"] ⟨[], []⟩
  exact ⟨h.2.2.1 "docs" (by decide), h.2.2.2 ("README.md.j2", "README.md") (by decide)⟩

/-- C2: for every pair of the generation loop, a failure while loading or
rendering its template makes the loop log the warning naming that output
path and the error and leaves at that same path exactly the fallback
content; a success leaves the rendered text.  The content at each pair's
path is a function of that pair's own render outcome only, so a template
failure for one file never changes the content written for any other
file, and `generate` is total: it never fails due to an individual
template error. -/
theorem C2_per_file_fault_isolation (render : Renderer) (r : GenerationRequest)
    (output_path : Path) (fs : FS) (pr : String × String)
    (hpr : pr ∈ files_to_generate) :
    (∀ e, render pr.1 (get_template_vars r) = .error e →
      warning_msg pr.2 e ∈ (generate render r output_path fs).2) ∧
    (generate render r output_path fs).1.read_file (output_path ++ splitPath pr.2)
      = some (rendered_or_fallback render (get_template_vars r)
          (output_path ++ splitPath pr.2) pr.1) := by
  constructor
  · intro e he
    exact rgf_log_mem render (get_template_vars r) output_path files_to_generate
      _ pr e hpr he
  · exact rgf_read_mem render (get_template_vars r) output_path files_to_generate
      _ pr hpr files_nodup

/-- C2, witness: with a renderer that always fails with "boom", the run
logs the warning for `README.md` and the file holds the fallback content. -/
theorem C2_per_file_fault_isolation_witness :
    warning_msg "README.md" "boom"
        ∈ (generate (fun _ _ => .error "boom") ⟨"p", "h", "custom", false⟩ ["out"] ⟨[], []⟩).2 ∧
    (generate (fun _ _ => .error "boom") ⟨"p", "h", "custom", false⟩ ["out"] ⟨[], []⟩).1.read_file
        (["out"] ++ splitPath "README.md")
      = some (rendered_or_fallback (fun _ _ => .error "boom")
          (get_template_vars ⟨"p", "h", "custom", false⟩)
          (["out"] ++ splitPath "README.md") "README.md.j2") := by
  have h := C2_per_file_fault_isolation (fun _ _ => .error "boom")
    ⟨"p", "h", "custom", false⟩ ["out"] ⟨[], []⟩ ("README.md.j2", "README.md") (by decide)
  exact ⟨h.1 "boom" rfl, h.2⟩

/-- C3: for every valid enum `model_type` value the dependency lookup
returns the exact fixed list of the five-entry table, with `custom`
mapping to the empty list, and any value outside the enum maps to the
empty list (the lookup is a total function, so it cannot raise). -/
theorem C3_model_specific_deps (r : GenerationRequest) :
    (r.model_type = "classification" →
      (get_template_vars r).model_specific_deps = ["scikit-learn>=1.3.2", "xgboost>=1.7.0"]) ∧
    (r.model_type = "regression" →
      (get_template_vars r).model_specific_deps = ["scikit-learn>=1.3.2", "statsmodels>=0.14.0"]) ∧
    (r.model_type = "segmentation" →
      (get_template_vars r).model_specific_deps
        = ["monai>=1.3.0", "cellpose==3.0.6", "segment-anything-py"]) ∧
    (r.model_type = "nlp" →
      (get_template_vars r).model_specific_deps
        = ["transformers>=4.20.0", "datasets>=2.0.0", "tokenizers>=0.13.0"]) ∧
    (r.model_type = "custom" → (get_template_vars r).model_specific_deps = []) ∧
    (r.model_type ∉ (["classification", "regression", "segmentation", "nlp", "custom"] : List String) →
      (get_template_vars r).model_specific_deps = []) := by
  refine ⟨?_, ?_, ?_, ?_, ?_, ?_⟩ <;> intro h
  case _ | _ | _ | _ | _ => simp [get_template_vars, get_model_dependencies, h]
  · simp only [List.mem_cons, List.not_mem_nil, or_false, not_or] at h
    obtain ⟨h1, h2, h3, h4, h5⟩ := h
    simp [get_template_vars, get_model_dependencies, h1, h2, h3, h4, h5]

/-- C3, witness: the segmentation list and an out-of-enum value. -/
theorem C3_model_specific_deps_witness :
    (get_template_vars ⟨"p", "h", "segmentation", false⟩).model_specific_deps
      = ["monai>=1.3.0", "cellpose==3.0.6", "segment-anything-py"] ∧
    (get_template_vars ⟨"p", "h", "resnet", false⟩).model_specific_deps = [] :=
  ⟨(C3_model_specific_deps ⟨"p", "h", "segmentation", false⟩).2.2.1 rfl,
   (C3_model_specific_deps ⟨"p", "h", "resnet", false⟩).2.2.2.2.2 (by decide)⟩

/-- C4: `use_gpu = true` gives exactly two GPU libraries and the
GPU-variant node type and Spark version; `use_gpu = false` gives an empty
GPU-library list and the non-GPU constants. -/
theorem C4_gpu_variants (r : GenerationRequest) :
    (r.use_gpu = true →
      (get_template_vars r).gpu_libraries.length = 2 ∧
      (get_template_vars r).node_type = "g4dn.xlarge" ∧
      (get_template_vars r).spark_version = "14.3.x-gpu-ml-scala2.12") ∧
    (r.use_gpu = false →
      (get_template_vars r).gpu_libraries = [] ∧
      (get_template_vars r).node_type = "i3.xlarge" ∧
      (get_template_vars r).spark_version = "14.3.x-scala2.12") := by
  constructor <;> intro h <;> simp [get_template_vars, h]

/-- C4, witness: both GPU settings at concrete requests. -/
theorem C4_gpu_variants_witness :
    ((get_template_vars ⟨"p", "h", "custom", true⟩).gpu_libraries.length = 2 ∧
      (get_template_vars ⟨"p", "h", "custom", true⟩).node_type = "g4dn.xlarge" ∧
      (get_template_vars ⟨"p", "h", "custom", true⟩).spark_version = "14.3.x-gpu-ml-scala2.12") ∧
    ((get_template_vars ⟨"p", "h", "custom", false⟩).gpu_libraries = [] ∧
      (get_template_vars ⟨"p", "h", "custom", false⟩).node_type = "i3.xlarge" ∧
      (get_template_vars ⟨"p", "h", "custom", false⟩).spark_version = "14.3.x-scala2.12") :=
  ⟨(C4_gpu_variants ⟨"p", "h", "custom", true⟩).1 rfl,
   (C4_gpu_variants ⟨"p", "h", "custom", false⟩).2 rfl⟩

/-- C5: the fallback content is dispatched on the output file name's
suffix, in the order the source checks them: `.py` gets the two-line
comment header with the project name and a TODO marker; `.yml`/`.yaml`
get the YAML comment header with the project name and a TODO marker;
`.json` gets the single-key TODO object; `.md` gets a heading with the
project name and a TODO line; anything else gets the generic one-line
comment with the project name. -/
theorem C5_fallback_dispatch (name : String) (vars : TemplateVars) :
    (endswith name ".py" = true →
      basic_file_content name vars
        = "# " ++ vars.project_name ++ " - Generated file\n# TODO: Implement functionality\n") ∧
    (endswith name ".py" = false →
      (endswith name ".yml" = true ∨ endswith name ".yaml" = true) →
      basic_file_content name vars
        = "# " ++ vars.project_name ++ " - Generated YAML\n# TODO: Configure properly\n") ∧
    (endswith name ".py" = false → endswith name ".yml" = false →
      endswith name ".yaml" = false → endswith name ".json" = true →
      basic_file_content name vars = "\x7b\n  \"TODO\": \"Configure properly\"\n\x7d\n") ∧
    (endswith name ".py" = false → endswith name ".yml" = false →
      endswith name ".yaml" = false → endswith name ".json" = false →
      endswith name ".md" = true →
      basic_file_content name vars
        = "# " ++ vars.project_name ++ "\n\nTODO: Add documentation\n") ∧
    (endswith name ".py" = false → endswith name ".yml" = false →
      endswith name ".yaml" = false → endswith name ".json" = false →
      endswith name ".md" = false →
      basic_file_content name vars = "# " ++ vars.project_name ++ " - Generated file\n") := by
  refine ⟨?_, ?_, ?_, ?_, ?_⟩
  · intro h1
    simp [basic_file_content, h1]
  · rintro h1 (h2 | h2) <;> simp [basic_file_content, h1, h2]
  · intro h1 h2 h3 h4
    simp [basic_file_content, h1, h2, h3, h4]
  · intro h1 h2 h3 h4 h5
    simp [basic_file_content, h1, h2, h3, h4, h5]
  · intro h1 h2 h3 h4 h5
    simp [basic_file_content, h1, h2, h3, h4, h5]

/-- C5, witness: the dispatch evaluated at one concrete name per format
family, with the variables of a concrete request. -/
theorem C5_fallback_dispatch_witness :
    basic_file_content "a.py" (get_template_vars ⟨"p", "h", "custom", false⟩)
      = "# p - Generated file\n# TODO: Implement functionality\n" ∧
    basic_file_content "a.yml" (get_template_vars ⟨"p", "h", "custom", false⟩)
      = "# p - Generated YAML\n# TODO: Configure properly\n" ∧
    basic_file_content "a.json" (get_template_vars ⟨"p", "h", "custom", false⟩)
      = "\x7b\n  \"TODO\": \"Configure properly\"\n\x7d\n" ∧
    basic_file_content "a.md" (get_template_vars ⟨"p", "h", "custom", false⟩)
      = "# p\n\nTODO: Add documentation\n" ∧
    basic_file_content "a.txt" (get_template_vars ⟨"p", "h", "custom", false⟩)
      = "# p - Generated file\n" :=
  ⟨(C5_fallback_dispatch "a.py" (get_template_vars ⟨"p", "h", "custom", false⟩)).1 (by decide),
   (C5_fallback_dispatch "a.yml" (get_template_vars ⟨"p", "h", "custom", false⟩)).2.1
     (by decide) (Or.inl (by decide)),
   (C5_fallback_dispatch "a.json" (get_template_vars ⟨"p", "h", "custom", false⟩)).2.2.1
     (by decide) (by decide) (by decide) (by decide),
   (C5_fallback_dispatch "a.md" (get_template_vars ⟨"p", "h", "custom", false⟩)).2.2.2.1
     (by decide) (by decide) (by decide) (by decide) (by decide),
   (C5_fallback_dispatch "a.txt" (get_template_vars ⟨"p", "h", "custom", false⟩)).2.2.2.2
     (by decide) (by decide) (by decide) (by decide) (by decide)⟩

/-- C6: the resolved `project_name_underscore` equals `project_name` with
every dash replaced by an underscore, and the replacement is idempotent:
applying it to the resolved value yields the same string. -/
theorem C6_underscore_idempotent (r : GenerationRequest) :
    (get_template_vars r).project_name_underscore = replace_dash r.project_name ∧
    replace_dash ((get_template_vars r).project_name_underscore)
      = (get_template_vars r).project_name_underscore :=
  ⟨rfl, replace_dash_idem r.project_name⟩

/-- C7: the fallback writer first creates all missing parent directories
of the output path and then writes the dispatched content at that path;
it is a total function of the filesystem state, so it never fails. -/
theorem C7_fallback_writer_safe (fs : FS) (file_path : Path) (r : GenerationRequest) :
    (∀ q ∈ ancestors file_path.dropLast,
      q ∈ (create_basic_file fs file_path (get_template_vars r)).dirs) ∧
    (create_basic_file fs file_path (get_template_vars r)).read_file file_path
      = some (basic_file_content (file_name file_path) (get_template_vars r)) := by
  constructor
  · intro q hq
    exact List.mem_append_left _ hq
  · simp [create_basic_file, FS.read_file, FS.write_file, FS.mkdir_parents, lookup_file]

/-- C7, witness: on an empty filesystem the fallback writer for
`a/b.py` creates the parent directory `a` and the file itself. -/
theorem C7_fallback_writer_safe_witness :
    (["a"] : Path) ∈ (create_basic_file ⟨[], []⟩ ["a", "b.py"]
        (get_template_vars ⟨"p", "h", "custom", false⟩)).dirs ∧
    (create_basic_file ⟨[], []⟩ ["a", "b.py"]
        (get_template_vars ⟨"p", "h", "custom", false⟩)).read_file ["a", "b.py"]
      = some (basic_file_content (file_name ["a", "b.py"])
          (get_template_vars ⟨"p", "h", "custom", false⟩)) :=
  ⟨(C7_fallback_writer_safe ⟨[], []⟩ ["a", "b.py"] ⟨"p", "h", "custom", false⟩).1
      ["a"] (by decide),
   (C7_fallback_writer_safe ⟨[], []⟩ ["a", "b.py"] ⟨"p", "h", "custom", false⟩).2⟩

/-- C8: when the computed destination path already exists and the user
declines the confirmation, `main` returns immediately: the filesystem is
unchanged, nothing is logged, and no generator runs. -/
theorem C8_decline_aborts (render : Renderer)
    (name output_dir workspace_host model_type : String) (use_gpu : Bool) (fs : FS)
    (hex : fs.path_exists (splitPath output_dir ++ splitPath name) = true) :
    cli_main render name output_dir workspace_host model_type use_gpu false fs
      = (fs, []) := by
  simp [cli_main, hex]

/-- C8, witness: a filesystem already holding the destination directory
is returned unchanged when the user declines. -/
theorem C8_decline_aborts_witness :
    cli_main (fun _ _ => .ok "x") "p" "." "h" "custom" false false
        ⟨[[".", "p"]], []⟩ = ((⟨[[".", "p"]], []⟩ : FS), []) :=
  C8_decline_aborts (fun _ _ => .ok "x") "p" "." "h" "custom" false
    ⟨[[".", "p"]], []⟩ (by decide)

/-- C9: in every pair of the static generation list, the template
identifier is the output-relative path with ".j2" appended. -/
theorem C9_template_naming (pr : String × String) (h : pr ∈ files_to_generate) :
    pr.1 = pr.2 ++ ".j2" := by
  revert pr h
  decide

/-- C9, witness: the naming invariant at one concrete pair. -/
theorem C9_template_naming_witness :
    ("docs/GOVERNANCE.md.j2", "docs/GOVERNANCE.md").1
      = ("docs/GOVERNANCE.md.j2", "docs/GOVERNANCE.md").2 ++ ".j2" :=
  C9_template_naming ("docs/GOVERNANCE.md.j2", "docs/GOVERNANCE.md") (by decide)

/-- C10: the fallback content depends only on the output file's name and
the `project_name` variable; two variable mappings agreeing on
`project_name` yield byte-identical fallback content. -/
theorem C10_fallback_content_independent (name : String) (v1 v2 : TemplateVars)
    (h : v1.project_name = v2.project_name) :
    basic_file_content name v1 = basic_file_content name v2 := by
  unfold basic_file_content
  rw [h]

/-- C10, witness: requests differing in workspace host, model type and
GPU flag but sharing the project name give identical fallback content. -/
theorem C10_fallback_content_independent_witness :
    basic_file_content "a.py" (get_template_vars ⟨"p", "h1", "nlp", true⟩)
      = basic_file_content "a.py" (get_template_vars ⟨"p", "h2", "custom", false⟩) :=
  C10_fallback_content_independent "a.py"
    (get_template_vars ⟨"p", "h1", "nlp", true⟩)
    (get_template_vars ⟨"p", "h2", "custom", false⟩) rfl

end TsMlBundle
